import Mathlib

/-!
Verification of the marge merge-pipeline core: a shallow embedding of the
state machine in src/git.rs, the event types of src/events.rs and the
driver loop of src/main.rs, together with proofs about the transition
functions.

Modelling conventions:
* A spawned external command's delivery logic (the closure passed to
  tokio::spawn) is embedded as a pure function from the command's outcome
  to the message sent on the result channel.
* A channel receiver (tokio Receiver) is embedded as a token recording
  the operation it is bound to; a non-blocking poll of a receiver is an
  explicit parameter of type Poll, supplied by the environment.
* Rust usize subtraction panics on underflow in checked builds, and
  Vec::remove panics when the index is out of bounds; the one transition
  function that can hit these (transition_waiting_sort) is embedded as an
  Option-valued function, none marking the panic.
-/

namespace Marge

/-- Key codes, restricted to the constructors the state machine inspects
(crossterm KeyCode; every other key behaves like `other`). -/
inductive KeyCode where
  | up
  | down
  | enter
  | esc
  | char (c : Char)
  | other
deriving DecidableEq, Repr

/-- AppEvent from src/events.rs (the error payload is dropped). -/
inductive AppEvent where
  | input (code : KeyCode)
  | signal
  | error
  | tick
deriving DecidableEq, Repr

/-- ActivePane from src/git.rs. -/
inductive ActivePane where
  | list
  | log
deriving DecidableEq, Repr

/-- MergeCandidate from src/merge_candidate.rs, flattened: the fields of
the wrapped pull request that the core reads (number, title, head branch
name). -/
structure MergeCandidate where
  number : Nat
  title : Option String
  headRef : String
deriving DecidableEq, Repr

/-- The external operation a spawned task executes (identifies which of
the task-spawning functions in src/git.rs produced a receiver, together
with its arguments). -/
inductive Op where
  | isRepoClean
  | checkoutBranch (branch : String)
  | pullRemote
  | rebaseBranch (onto : String)
  | hasNoConflicts
  | validateOp (cmd : String)
  | pushCandidate
deriving DecidableEq, Repr

/-- A channel receiver handle: the receiving end of the single-slot
channel of a spawned task, identified by the operation it is bound to. -/
structure Rx where
  op : Op
deriving DecidableEq, Repr

/-- Outcome of one non-blocking poll of a receiver (rx.recv() raced
against an already-ready future): still pending, channel closed without
a value (recv = None), value Ok, or value Err. -/
inductive Poll (α : Type) where
  | pending
  | closed
  | ok (a : α)
  | err
deriving DecidableEq, Repr

/-- Outcome of running one external command: the spawn itself failed
(io::Result Err), or the process exited with the given status code. -/
inductive CmdOutcome where
  | ioError
  | exited (code : Nat)
deriving DecidableEq, Repr

/-- The message checkout_branch's task sends (src/git.rs 96-121): Err only
when the command could not be run; any exit status yields Ok(()). -/
def checkout_branch_send : CmdOutcome → Except Unit Unit
  | .ioError => .error ()
  | .exited _ => .ok ()

/-- The message pull_remote's task sends (src/git.rs 197-217): Err only on
an I/O error; the exit status is not inspected. -/
def pull_remote_send : CmdOutcome → Except Unit Unit
  | .ioError => .error ()
  | .exited _ => .ok ()

/-- The message push_candidate's task sends (src/git.rs 219-242): Err only
on an I/O error; the exit status is not inspected. -/
def push_candidate_send : CmdOutcome → Except Unit Unit
  | .ioError => .error ()
  | .exited _ => .ok ()

/-- A delivered message as seen by a poll of the receiver. -/
def sentPoll : Except Unit α → Poll α
  | .ok a => .ok a
  | .error _ => .err

/-- SortingState from src/git.rs. -/
structure SortingState where
  unsorted : List MergeCandidate
  current_index : Nat
  merge_chain : List MergeCandidate
deriving DecidableEq, Repr

/-- WorkingState from src/git.rs. -/
structure WorkingState where
  current_checkout : MergeCandidate
  next : List MergeCandidate
  done : List MergeCandidate
deriving DecidableEq, Repr

/-- MergingState from src/git.rs. -/
structure MergingState where
  to_merge : List MergeCandidate
deriving DecidableEq, Repr

/-- AppState from src/git.rs. -/
inductive AppState where
  | CheckingRepo (rx : Rx)
  | WaitingForCleanRepo
  | CheckingOutTargetBranch (rx : Rx)
  | PullingRemote (rx : Rx)
  | GettingPulls
  | WaitingForSort (s : SortingState)
  | UpdatingCandidate (s : WorkingState)
  | CheckingOutCandidate (rx : Rx) (s : WorkingState)
  | RebaseCandidate (rx : Rx) (s : WorkingState)
  | CheckingForConflicts (rx : Rx) (s : WorkingState)
  | WaitingForResolution (s : WorkingState)
  | Validating (rx : Rx) (s : WorkingState)
  | WaitingForFix (s : WorkingState)
  | PushingCandidate (rx : Rx) (s : WorkingState)
  | Merging (s : MergingState)
  | Done
  | Failed
deriving DecidableEq, Repr

/-- transition_checking (src/git.rs 472-491): poll the is_repo_clean
receiver; pending keeps the state, Ok(true) spawns the target checkout,
Ok(false) waits for cleanup, Err or a closed channel fails. -/
def transition_checking (branchname : String) (poll : Poll Bool) (rx : Rx) : AppState :=
  match poll with
  | .pending => .CheckingRepo rx
  | .ok is_clean =>
      if is_clean then .CheckingOutTargetBranch ⟨.checkoutBranch branchname⟩
      else .WaitingForCleanRepo
  | .closed => .Failed
  | .err => .Failed

/-- transition_waiting_clean (src/git.rs 494-503). -/
def transition_waiting_clean (last_event : AppEvent) : AppState :=
  match last_event with
  | .input (.char ' ') => .CheckingRepo ⟨.isRepoClean⟩
  | .error => .Failed
  | _ => .WaitingForCleanRepo

/-- transition_waiting_resolution (src/git.rs 505-514). -/
def transition_waiting_resolution (last_event : AppEvent) (s : WorkingState) : AppState :=
  match last_event with
  | .input (.char ' ') => .CheckingForConflicts ⟨.hasNoConflicts⟩ s
  | .error => .Failed
  | _ => .WaitingForResolution s

/-- transition_checking_out_target (src/git.rs 516-537). -/
def transition_checking_out_target (poll : Poll Unit) (rx : Rx) : AppState :=
  match poll with
  | .pending => .CheckingOutTargetBranch rx
  | .ok _ => .PullingRemote ⟨.pullRemote⟩
  | .closed => .Failed
  | .err => .Failed

/-- transition_pull_remote (src/git.rs 539-559). -/
def transition_pull_remote (poll : Poll Unit) (rx : Rx) : AppState :=
  match poll with
  | .pending => .PullingRemote rx
  | .ok _ => .GettingPulls
  | .closed => .Failed
  | .err => .Failed

/-- transition_getting_pulls (src/git.rs 561-573): the fetched pull list
(None when get_pulls failed). -/
def transition_getting_pulls (pulls : Option (List MergeCandidate)) : AppState :=
  match pulls with
  | some cs => .WaitingForSort ⟨cs, 0, []⟩
  | none => .Failed

/-- transition_waiting_sort (src/git.rs 575-676). An Error event fails;
non-input events and input while the log pane is active keep the state.
Up and Down move the cursor circularly (unsorted.len() - 1 underflows on
an empty list: none); Enter moves the cursor's candidate to the tail of
merge_chain (Vec::remove panics on an out-of-range index: none); Escape
pops the chain tail back onto unsorted; space confirms. -/
def transition_waiting_sort (pane : ActivePane) (last_event : AppEvent)
    (state : SortingState) : Option AppState :=
  if last_event = .error then some .Failed else
  match last_event with
  | .input code =>
    if pane = .log then some (.WaitingForSort state) else
    match code with
    | .up =>
        if state.current_index = 0 then
          if state.unsorted.length = 0 then none
          else some (.WaitingForSort { state with current_index := state.unsorted.length - 1 })
        else some (.WaitingForSort { state with current_index := state.current_index - 1 })
    | .down =>
        if state.unsorted.length = 0 then none
        else some (.WaitingForSort { state with current_index :=
          if state.current_index = state.unsorted.length - 1 then 0
          else state.current_index + 1 })
    | .enter =>
        if state.unsorted.isEmpty then
          some (.WaitingForSort { state with current_index := 0 })
        else
          match state.unsorted[state.current_index]? with
          | some c => some (.WaitingForSort
              { unsorted := state.unsorted.eraseIdx state.current_index,
                current_index := 0,
                merge_chain := state.merge_chain ++ [c] })
          | none => none
    | .esc =>
        match state.merge_chain.getLast? with
        | some h => some (.WaitingForSort
            { unsorted := state.unsorted ++ [h],
              current_index := 0,
              merge_chain := state.merge_chain.dropLast })
        | none => some (.WaitingForSort { state with current_index := 0 })
    | .char c =>
        if c = ' ' then
          match state.merge_chain with
          | [] => some .Done
          | c0 :: rest => some (.UpdatingCandidate ⟨c0, rest, []⟩)
        else some (.WaitingForSort state)
    | .other => some (.WaitingForSort state)
  | _ => some (.WaitingForSort state)

/-- transition_updating_candidate (src/git.rs 679-714): retarget the
current candidate onto done.last().head (or the target branch), then
spawn the checkout of its head. retargetOk gives the API call's result
as a function of the pull number and the requested base. -/
def transition_updating_candidate (branch : String)
    (retargetOk : Nat → String → Bool) (s : WorkingState) : AppState :=
  let onto := ((s.done.getLast?).map (fun c => c.headRef)).getD branch
  if retargetOk s.current_checkout.number onto then
    .CheckingOutCandidate ⟨.checkoutBranch s.current_checkout.headRef⟩ s
  else .Failed

/-- transition_checkout_candidate (src/git.rs 716-762): on checkout Ok,
spawn the rebase onto done.last().head (or the target branch). -/
def transition_checkout_candidate (branch : String) (poll : Poll Unit)
    (rx : Rx) (s : WorkingState) : AppState :=
  match poll with
  | .pending => .CheckingOutCandidate rx s
  | .ok _ =>
      let next_base := ((s.done.getLast?).map (fun c => c.headRef)).getD branch
      .RebaseCandidate ⟨.rebaseBranch next_base⟩ s
  | .closed => .Failed
  | .err => .Failed

/-- transition_rebasing (src/git.rs 764-794). -/
def transition_rebasing (cmd : String) (poll : Poll Bool) (rx : Rx)
    (s : WorkingState) : AppState :=
  match poll with
  | .pending => .RebaseCandidate rx s
  | .ok d =>
      if d then .Validating ⟨.validateOp cmd⟩ s
      else .CheckingForConflicts ⟨.hasNoConflicts⟩ s
  | .closed => .Failed
  | .err => .Failed

/-- transition_check_conflicts (src/git.rs 796-824). -/
def transition_check_conflicts (cmd : String) (poll : Poll Bool) (rx : Rx)
    (s : WorkingState) : AppState :=
  match poll with
  | .pending => .CheckingForConflicts rx s
  | .ok no_conflicts =>
      if no_conflicts then .Validating ⟨.validateOp cmd⟩ s
      else .WaitingForResolution s
  | .closed => .Failed
  | .err => .Failed

/-- transition_validate (src/git.rs 826-851). -/
def transition_validate (poll : Poll Bool) (rx : Rx) (s : WorkingState) : AppState :=
  match poll with
  | .pending => .Validating rx s
  | .ok is_validated =>
      if is_validated then .PushingCandidate ⟨.pushCandidate⟩ s
      else .WaitingForFix s
  | .closed => .Failed
  | .err => .Failed

/-- transition_fixing (src/git.rs 894-903). -/
def transition_fixing (last_event : AppEvent) (cmd : String) (s : WorkingState) : AppState :=
  match last_event with
  | .input (.char ' ') => .Validating ⟨.validateOp cmd⟩ s
  | .error => .Failed
  | _ => .WaitingForFix s

/-- transition_pushing (src/git.rs 853-892): on push Ok, move
current_checkout to the tail of done, then either pop the head of next
into a new WorkingState or, when next is empty, start Merging with done. -/
def transition_pushing (poll : Poll Unit) (rx : Rx) (s : WorkingState) : AppState :=
  match poll with
  | .pending => .PushingCandidate rx s
  | .ok _ =>
      let done := s.done ++ [s.current_checkout]
      match s.next with
      | [] => .Merging ⟨done⟩
      | c :: rest => .UpdatingCandidate ⟨c, rest, done⟩
  | .closed => .Failed
  | .err => .Failed

/-- transition_merging (src/git.rs 905-932): merge each candidate of
to_merge in order, stopping at the first Err. mergeOk gives the remote
merge call's result per pull number; the second component records the
pull numbers the merge API was invoked on, in invocation order. -/
def transition_merging (mergeOk : Nat → Bool) : List MergeCandidate → AppState × List Nat
  | [] => (.Done, [])
  | c :: rest =>
      if mergeOk c.number then
        let r := transition_merging mergeOk rest
        (r.1, c.number :: r.2)
      else (.Failed, [c.number])

/-- The fields of Marge (src/git.rs 362-372) that the transition
dispatcher reads. -/
structure Ctx where
  branch : String
  cmd : String
  pane : ActivePane
  lastEvent : AppEvent

/-- The environment's answers for one tick: the poll outcome of the
receiver held by the current state (by result type), the fetched pull
list, and the results of the remote API calls. -/
structure Env where
  pollBool : Poll Bool
  pollUnit : Poll Unit
  pulls : Option (List MergeCandidate)
  retargetOk : Nat → String → Bool
  mergeOk : Nat → Bool

/-- Marge::try_transition (src/git.rs 375-415): dispatch on the current
state. none marks a panic inside transition_waiting_sort. -/
def try_transition (ctx : Ctx) (env : Env) (st : AppState) : Option AppState :=
  match st with
  | .CheckingRepo rx => some (transition_checking ctx.branch env.pollBool rx)
  | .WaitingForCleanRepo => some (transition_waiting_clean ctx.lastEvent)
  | .CheckingOutTargetBranch rx => some (transition_checking_out_target env.pollUnit rx)
  | .PullingRemote rx => some (transition_pull_remote env.pollUnit rx)
  | .GettingPulls => some (transition_getting_pulls env.pulls)
  | .WaitingForSort s => transition_waiting_sort ctx.pane ctx.lastEvent s
  | .UpdatingCandidate s => some (transition_updating_candidate ctx.branch env.retargetOk s)
  | .CheckingOutCandidate rx s => some (transition_checkout_candidate ctx.branch env.pollUnit rx s)
  | .RebaseCandidate rx s => some (transition_rebasing ctx.cmd env.pollBool rx s)
  | .CheckingForConflicts rx s => some (transition_check_conflicts ctx.cmd env.pollBool rx s)
  | .WaitingForResolution s => some (transition_waiting_resolution ctx.lastEvent s)
  | .Validating rx s => some (transition_validate env.pollBool rx s)
  | .WaitingForFix s => some (transition_fixing ctx.lastEvent ctx.cmd s)
  | .PushingCandidate rx s => some (transition_pushing env.pollUnit rx s)
  | .Merging s => some (transition_merging env.mergeOk s.to_merge).1
  | .Done => some .Done
  | .Failed => some .Failed

/-- True exactly for the states that hold a pending-operation receiver. -/
def hasPending : AppState → Bool
  | .CheckingRepo _ => true
  | .CheckingOutTargetBranch _ => true
  | .PullingRemote _ => true
  | .CheckingOutCandidate _ _ => true
  | .RebaseCandidate _ _ => true
  | .CheckingForConflicts _ _ => true
  | .Validating _ _ => true
  | .PushingCandidate _ _ => true
  | _ => false

/-- The per-session constants of the driver loop in src/main.rs. -/
structure BaseCtx where
  branch : String
  cmd : String
  pane : ActivePane

/-- Outcome of one iteration of the driver loop. -/
inductive LoopOut where
  | cont (st : AppState)
  | exitOk (st : AppState)
  | exitErr (st : AppState)
  | panicked
deriving Repr

/-- One iteration of the main loop (src/main.rs 71-92): a closed event
pump breaks with success before transitioning; otherwise the received
event becomes last_event, try_transition runs, then an Error event
returns Err, a Signal breaks with success, and anything else continues. -/
def mainStep (base : BaseCtx) (st : AppState) (ev : Option AppEvent) (env : Env) : LoopOut :=
  match ev with
  | none => .exitOk st
  | some e =>
    match try_transition ⟨base.branch, base.cmd, base.pane, e⟩ env st with
    | none => .panicked
    | some st2 =>
      if e = .error then .exitErr st2
      else if e = .signal then .exitOk st2
      else .cont st2

/-- How a finite run of the driver loop ended (running: the supplied
event prefix was exhausted with the loop still going). -/
inductive LoopResult where
  | running
  | okExit
  | errExit
  | panicked
deriving DecidableEq, Repr

/-- Run the driver loop over a finite prefix of events and environment
answers, collecting the state trace (the state before each iteration and
the final state). -/
def runLoop (base : BaseCtx) : AppState → List (Option AppEvent × Env) → List AppState × LoopResult
  | st, [] => ([st], .running)
  | st, (ev, env) :: rest =>
      match mainStep base st ev env with
      | .cont st2 =>
          let r := runLoop base st2 rest
          (st :: r.1, r.2)
      | .exitOk st2 => ([st, st2], .okExit)
      | .exitErr st2 => ([st, st2], .errExit)
      | .panicked => ([st], .panicked)

/-- Step inside the sorting screen: apply transition_waiting_sort and
extract the next SortingState when the result stays in WaitingForSort. -/
def sortStep (pane : ActivePane) (last_event : AppEvent) (s : SortingState) :
    Option SortingState :=
  match transition_waiting_sort pane last_event s with
  | some (.WaitingForSort s2) => some s2
  | _ => none

theorem sortStep_eq {pane : ActivePane} {ev : AppEvent} {s t : SortingState}
    (h : transition_waiting_sort pane ev s = some (.WaitingForSort t)) :
    sortStep pane ev s = some t := by
  rw [sortStep, h]

theorem tws_up (s : SortingState) (h : s.unsorted ≠ []) :
    transition_waiting_sort .list (.input .up) s
      = some (.WaitingForSort { s with current_index :=
          if s.current_index = 0 then s.unsorted.length - 1
          else s.current_index - 1 }) := by
  have hlen : s.unsorted.length ≠ 0 := by simpa [List.length_eq_zero] using h
  by_cases h0 : s.current_index = 0 <;> simp [transition_waiting_sort, h0, hlen]

theorem tws_down (s : SortingState) (h : s.unsorted ≠ []) :
    transition_waiting_sort .list (.input .down) s
      = some (.WaitingForSort { s with current_index :=
          if s.current_index = s.unsorted.length - 1 then 0
          else s.current_index + 1 }) := by
  have hlen : s.unsorted.length ≠ 0 := by simpa [List.length_eq_zero] using h
  simp [transition_waiting_sort, hlen]

theorem tws_enter (s : SortingState) (c : MergeCandidate)
    (hc : s.unsorted[s.current_index]? = some c) :
    transition_waiting_sort .list (.input .enter) s
      = some (.WaitingForSort
          ⟨s.unsorted.eraseIdx s.current_index, 0, s.merge_chain ++ [c]⟩) := by
  have hlt : s.current_index < s.unsorted.length := by
    rw [List.getElem?_eq_some] at hc
    exact hc.1
  have hne : s.unsorted.isEmpty = false := by
    rcases hu : s.unsorted with _ | _
    · rw [hu] at hlt; simp at hlt
    · rfl
  simp [transition_waiting_sort, hne, hc]

theorem tws_esc_nil (s : SortingState) (h : s.merge_chain = []) :
    transition_waiting_sort .list (.input .esc) s
      = some (.WaitingForSort { s with current_index := 0 }) := by
  simp [transition_waiting_sort, h]

theorem tws_esc_concat (s : SortingState) (l : List MergeCandidate)
    (c : MergeCandidate) (h : s.merge_chain = l ++ [c]) :
    transition_waiting_sort .list (.input .esc) s
      = some (.WaitingForSort ⟨s.unsorted ++ [c], 0, l⟩) := by
  simp [transition_waiting_sort, h, List.getLast?_concat, List.dropLast_concat]

/-- C10: in WaitingForSort with the list pane active and unsorted empty,
an Up or Down input hits the unguarded unsorted.len() - 1 subtraction on
a usize length of 0, so the transition is not total there (none marks the
panic of checked arithmetic). -/
theorem c10_empty_unsorted_updown (chain : List MergeCandidate) :
    transition_waiting_sort .list (.input .up) ⟨[], 0, chain⟩ = none
    ∧ transition_waiting_sort .list (.input .down) ⟨[], 0, chain⟩ = none :=
  ⟨rfl, rfl⟩

/-- C9: in WaitingForSort, for a non-empty unsorted and a valid cursor,
Up then Down (and Down then Up) returns the cursor to its original value,
wrapping at both ends of unsorted. -/
theorem c9_up_down_inverse (s : SortingState) (h1 : s.unsorted ≠ [])
    (h2 : s.current_index < s.unsorted.length) :
    ((sortStep .list (.input .up) s).bind (sortStep .list (.input .down))).map
        SortingState.current_index = some s.current_index
    ∧ ((sortStep .list (.input .down) s).bind (sortStep .list (.input .up))).map
        SortingState.current_index = some s.current_index := by
  have hlen : 0 < s.unsorted.length := List.length_pos.mpr h1
  constructor
  · rw [sortStep_eq (tws_up s h1), Option.some_bind,
      sortStep_eq (tws_down { s with current_index :=
        if s.current_index = 0 then s.unsorted.length - 1
        else s.current_index - 1 } h1), Option.map_some']
    simp only [Option.some.injEq]
    split_ifs <;> omega
  · rw [sortStep_eq (tws_down s h1), Option.some_bind,
      sortStep_eq (tws_up { s with current_index :=
        if s.current_index = s.unsorted.length - 1 then 0
        else s.current_index + 1 } h1), Option.map_some']
    simp only [Option.some.injEq]
    split_ifs <;> first
      | omega
      | simp_all

/-- C9 witness: a concrete one-element list with cursor 0. -/
theorem c9_up_down_inverse_witness :
    ((sortStep .list (.input .up) ⟨[⟨1, none, "a"⟩], 0, []⟩).bind
        (sortStep .list (.input .down))).map SortingState.current_index = some 0 :=
  (c9_up_down_inverse ⟨[⟨1, none, "a"⟩], 0, []⟩ (by decide) (by decide)).1

/-- C8: in WaitingForSort with non-empty unsorted and a valid cursor, each
of Up, Down, Enter and Escape keeps unsorted.length + merge_chain.length
unchanged. -/
theorem c8_sum_invariant (s : SortingState) (h1 : s.unsorted ≠ [])
    (h2 : s.current_index < s.unsorted.length) (code : KeyCode)
    (hc : code = .up ∨ code = .down ∨ code = .enter ∨ code = .esc) :
    ∃ s2, transition_waiting_sort .list (.input code) s = some (.WaitingForSort s2)
      ∧ s2.unsorted.length + s2.merge_chain.length
          = s.unsorted.length + s.merge_chain.length := by
  rcases hc with rfl | rfl | rfl | rfl
  · exact ⟨_, tws_up s h1, rfl⟩
  · exact ⟨_, tws_down s h1, rfl⟩
  · refine ⟨_, tws_enter s (s.unsorted.get ⟨s.current_index, h2⟩)
      (by rw [List.getElem?_eq_getElem h2]; rfl), ?_⟩
    have := List.length_eraseIdx_add_one h2
    simp only [List.length_append, List.length_singleton]
    omega
  · rcases List.eq_nil_or_concat s.merge_chain with h | ⟨l, c, h⟩
    · exact ⟨_, tws_esc_nil s h, rfl⟩
    · rw [List.concat_eq_append] at h
      refine ⟨_, tws_esc_concat s l c h, ?_⟩
      simp only [List.length_append, List.length_singleton, h]
      omega

/-- C8 witness: a concrete two-element unsorted list, Enter at cursor 0. -/
theorem c8_sum_invariant_witness :
    ∃ s2, transition_waiting_sort .list (.input .enter)
        ⟨[⟨1, none, "a"⟩, ⟨2, none, "b"⟩], 0, []⟩ = some (.WaitingForSort s2)
      ∧ s2.unsorted.length + s2.merge_chain.length
          = ([⟨1, none, "a"⟩, ⟨2, none, "b"⟩] : List MergeCandidate).length
            + ([] : List MergeCandidate).length :=
  c8_sum_invariant ⟨[⟨1, none, "a"⟩, ⟨2, none, "b"⟩], 0, []⟩ (by decide) (by decide)
    .enter (Or.inr (Or.inr (Or.inl rfl)))

/-- C3 counterexample: with unsorted = [a, b], cursor 0 and an empty
chain, Enter then Escape yields unsorted = [b, a], not the original
[a, b]: the selected candidate is reappended at the tail, so the claimed
exact restoration of unsorted fails. -/
theorem c3_counterexample :
    ((sortStep .list (.input .enter)
        ⟨[⟨1, none, "a"⟩, ⟨2, none, "b"⟩], 0, []⟩).bind
      (sortStep .list (.input .esc)))
      = some ⟨[⟨2, none, "b"⟩, ⟨1, none, "a"⟩], 0, []⟩
    ∧ ([⟨2, none, "b"⟩, ⟨1, none, "a"⟩] : List MergeCandidate)
        ≠ [⟨1, none, "a"⟩, ⟨2, none, "b"⟩] := by
  exact ⟨rfl, by decide⟩

/-- C3 (amended): Enter then Escape restores merge_chain exactly and
resets the cursor to 0, but unsorted only up to order: the candidate that
was at the cursor is removed there and reappended at the tail, so unsorted
becomes eraseIdx(cursor) ++ [selected] - a permutation of its pre-Enter
contents that equals them only when the cursor was on the last element. -/
theorem c3_enter_escape (s : SortingState) (c : MergeCandidate)
    (hc : s.unsorted[s.current_index]? = some c) :
    (sortStep .list (.input .enter) s).bind (sortStep .list (.input .esc))
      = some ⟨s.unsorted.eraseIdx s.current_index ++ [c], 0, s.merge_chain⟩
    ∧ (s.unsorted.eraseIdx s.current_index ++ [c]).Perm s.unsorted := by
  have hlt : s.current_index < s.unsorted.length := by
    rw [List.getElem?_eq_some] at hc
    exact hc.1
  constructor
  · rw [sortStep_eq (tws_enter s c hc), Option.some_bind,
      sortStep_eq (tws_esc_concat _ s.merge_chain c rfl)]
  · have hget : s.unsorted[s.current_index] = c := by
      rw [List.getElem?_eq_some] at hc
      exact hc.2
    have hdecomp : s.unsorted
        = s.unsorted.take s.current_index ++ c :: s.unsorted.drop (s.current_index + 1) := by
      conv_lhs => rw [← List.take_append_drop s.current_index s.unsorted]
      rw [List.drop_eq_getElem_cons hlt, hget]
    rw [List.eraseIdx_eq_take_drop_succ, List.append_assoc]
    conv_rhs => rw [hdecomp]
    exact List.Perm.append_left _ (List.perm_append_singleton c _)

/-- C3 (amended) witness: the two-element list from the counterexample. -/
theorem c3_enter_escape_witness :
    (sortStep .list (.input .enter)
        ⟨[⟨1, none, "a"⟩, ⟨2, none, "b"⟩], 0, []⟩).bind
      (sortStep .list (.input .esc))
      = some ⟨([⟨1, none, "a"⟩, ⟨2, none, "b"⟩] : List MergeCandidate).eraseIdx 0
                ++ [⟨1, none, "a"⟩], 0, []⟩ :=
  (c3_enter_escape ⟨[⟨1, none, "a"⟩, ⟨2, none, "b"⟩], 0, []⟩ ⟨1, none, "a"⟩ rfl).1

/-- C1 counterexample: exit status 1 from the checkout, pull or push
command is delivered as Ok, and polling the target-checkout receiver with
that delivery advances to PullingRemote rather than collapsing to Failed. -/
theorem c1_counterexample :
    checkout_branch_send (.exited 1) = .ok ()
    ∧ pull_remote_send (.exited 1) = .ok ()
    ∧ push_candidate_send (.exited 1) = .ok ()
    ∧ transition_checking_out_target (sentPoll (checkout_branch_send (.exited 1)))
        ⟨.checkoutBranch "main"⟩ = .PullingRemote ⟨.pullRemote⟩
    ∧ transition_checking_out_target (sentPoll (checkout_branch_send (.exited 1)))
        ⟨.checkoutBranch "main"⟩ ≠ .Failed :=
  ⟨rfl, rfl, rfl, rfl, by decide⟩

/-- C1 (amended): the checkout, pull and push tasks deliver Ok(()) for
every completed command regardless of its exit status; only an I/O error
from spawning resolves the pending operation to an error, and only that
Err delivery makes the polling transition collapse to Failed - an Ok
delivery advances to the success state. -/
theorem c1_exit_status_ignored (code : Nat) (rx : Rx) (s : WorkingState) :
    checkout_branch_send (.exited code) = .ok ()
    ∧ pull_remote_send (.exited code) = .ok ()
    ∧ push_candidate_send (.exited code) = .ok ()
    ∧ checkout_branch_send .ioError = .error ()
    ∧ pull_remote_send .ioError = .error ()
    ∧ push_candidate_send .ioError = .error ()
    ∧ transition_checking_out_target (sentPoll (checkout_branch_send (.exited code))) rx
        = .PullingRemote ⟨.pullRemote⟩
    ∧ transition_pull_remote (sentPoll (pull_remote_send (.exited code))) rx
        = .GettingPulls
    ∧ transition_checking_out_target (sentPoll (checkout_branch_send .ioError)) rx
        = .Failed
    ∧ transition_pull_remote (sentPoll (pull_remote_send .ioError)) rx = .Failed
    ∧ transition_pushing (sentPoll (push_candidate_send .ioError)) rx s = .Failed :=
  ⟨rfl, rfl, rfl, rfl, rfl, rfl, rfl, rfl, rfl, rfl, rfl⟩

/-- C5: for every WorkingState, the base used for the retarget API call
and for the subsequent rebase spawn is the head branch of the last
element of done when done is non-empty, and the configured target branch
when done is empty. -/
theorem c5_retarget_base (branch : String) (s : WorkingState)
    (retargetOk : Nat → String → Bool) (rx : Rx) :
    (s.done = [] →
      transition_updating_candidate branch retargetOk s
        = (if retargetOk s.current_checkout.number branch then
            .CheckingOutCandidate ⟨.checkoutBranch s.current_checkout.headRef⟩ s
          else .Failed)
      ∧ transition_checkout_candidate branch (.ok ()) rx s
          = .RebaseCandidate ⟨.rebaseBranch branch⟩ s)
    ∧ (∀ cs c, s.done = cs ++ [c] →
      transition_updating_candidate branch retargetOk s
        = (if retargetOk s.current_checkout.number c.headRef then
            .CheckingOutCandidate ⟨.checkoutBranch s.current_checkout.headRef⟩ s
          else .Failed)
      ∧ transition_checkout_candidate branch (.ok ()) rx s
          = .RebaseCandidate ⟨.rebaseBranch c.headRef⟩ s) := by
  constructor
  · intro h
    constructor
    · simp [transition_updating_candidate, h]
    · simp [transition_checkout_candidate, h]
  · intro cs c h
    constructor
    · simp [transition_updating_candidate, h, List.getLast?_concat]
    · simp [transition_checkout_candidate, h, List.getLast?_concat]

/-- C5 witness: empty done uses the target branch; done = [b-candidate]
uses that candidate's head branch. -/
theorem c5_retarget_base_witness :
    transition_checkout_candidate "main" (.ok ()) ⟨.pullRemote⟩
        ⟨⟨1, none, "a"⟩, [], []⟩
      = .RebaseCandidate ⟨.rebaseBranch "main"⟩ ⟨⟨1, none, "a"⟩, [], []⟩
    ∧ transition_checkout_candidate "main" (.ok ()) ⟨.pullRemote⟩
        ⟨⟨1, none, "a"⟩, [], [⟨2, none, "b"⟩]⟩
      = .RebaseCandidate ⟨.rebaseBranch "b"⟩ ⟨⟨1, none, "a"⟩, [], [⟨2, none, "b"⟩]⟩ :=
  ⟨((c5_retarget_base "main" ⟨⟨1, none, "a"⟩, [], []⟩ (fun _ _ => true)
      ⟨.pullRemote⟩).1 rfl).2,
   ((c5_retarget_base "main" ⟨⟨1, none, "a"⟩, [], [⟨2, none, "b"⟩]⟩ (fun _ _ => true)
      ⟨.pullRemote⟩).2 [] ⟨2, none, "b"⟩ rfl).2⟩

/-- C4: the three-candidate scenario: confirming chain [P2, P1] with P3
left unsorted starts WorkingState(P2, [P1], []); a successful push of P2
advances to WorkingState(P1, [], [P2]); a successful push of P1 enters
Merging([P2, P1]); Merging calls merge on P2 strictly before P1, reaches
Done when both merges succeed and Failed on the first merge error. -/
theorem c4_chain_scenario (P1 P2 P3 : MergeCandidate) (mergeOk : Nat → Bool) (rx : Rx) :
    transition_waiting_sort .list (.input (.char ' ')) ⟨[P3], 0, [P2, P1]⟩
      = some (.UpdatingCandidate ⟨P2, [P1], []⟩)
    ∧ transition_pushing (.ok ()) rx ⟨P2, [P1], []⟩ = .UpdatingCandidate ⟨P1, [], [P2]⟩
    ∧ transition_pushing (.ok ()) rx ⟨P1, [], [P2]⟩ = .Merging ⟨[P2, P1]⟩
    ∧ (transition_merging mergeOk [P2, P1]).2.head? = some P2.number
    ∧ (mergeOk P2.number = true → mergeOk P1.number = true →
        transition_merging mergeOk [P2, P1] = (.Done, [P2.number, P1.number]))
    ∧ (mergeOk P2.number = false →
        transition_merging mergeOk [P2, P1] = (.Failed, [P2.number])) := by
  refine ⟨rfl, rfl, rfl, ?_, ?_, ?_⟩
  · by_cases h : mergeOk P2.number <;> simp [transition_merging, h]
  · intro h2 h1
    simp [transition_merging, h2, h1]
  · intro h2
    simp [transition_merging, h2]

/-- C4 witness: concrete candidates, one all-succeed merge environment
and one all-fail merge environment. -/
theorem c4_chain_scenario_witness :
    transition_merging (fun _ => true) [⟨2, none, "b"⟩, ⟨1, none, "a"⟩]
      = (.Done, [2, 1])
    ∧ transition_merging (fun _ => false) [⟨2, none, "b"⟩, ⟨1, none, "a"⟩]
      = (.Failed, [2]) :=
  ⟨(c4_chain_scenario ⟨1, none, "a"⟩ ⟨2, none, "b"⟩ ⟨3, none, "c"⟩ (fun _ => true)
      ⟨.pushCandidate⟩).2.2.2.2.1 rfl rfl,
   (c4_chain_scenario ⟨1, none, "a"⟩ ⟨2, none, "b"⟩ ⟨3, none, "c"⟩ (fun _ => false)
      ⟨.pushCandidate⟩).2.2.2.2.2 rfl⟩

/-- C6: in every state holding a pending operation, a poll that yields
Err or finds the channel closed without a value makes the transition
return Failed, whatever the pipeline stage. -/
theorem c6_err_to_failed (ctx : Ctx) (env : Env) (st : AppState)
    (hp : hasPending st = true)
    (hb : env.pollBool = .closed ∨ env.pollBool = .err)
    (hu : env.pollUnit = .closed ∨ env.pollUnit = .err) :
    try_transition ctx env st = some .Failed := by
  cases st <;> simp [hasPending] at hp <;>
    rcases hb with hb | hb <;> rcases hu with hu | hu <;>
      simp [try_transition, transition_checking, transition_checking_out_target,
        transition_pull_remote, transition_checkout_candidate, transition_rebasing,
        transition_check_conflicts, transition_validate, transition_pushing, hb, hu]

/-- C6 witness: an Err poll in CheckingRepo. -/
theorem c6_err_to_failed_witness :
    try_transition ⟨"main", "true", .list, .tick⟩
      ⟨.err, .err, none, fun _ _ => true, fun _ => true⟩
      (.CheckingRepo ⟨.isRepoClean⟩) = some .Failed :=
  c6_err_to_failed ⟨"main", "true", .list, .tick⟩
    ⟨.err, .err, none, fun _ _ => true, fun _ => true⟩
    (.CheckingRepo ⟨.isRepoClean⟩) rfl (Or.inr rfl) (Or.inr rfl)

/-- C7: in every state holding a pending operation, a poll that is not
yet resolved returns the identical state - same variant, same receiver
handle, same carried data - so ticks while an operation is in flight are
no-ops. -/
theorem c7_pending_noop (ctx : Ctx) (env : Env) (st : AppState)
    (hp : hasPending st = true)
    (hb : env.pollBool = .pending) (hu : env.pollUnit = .pending) :
    try_transition ctx env st = some st := by
  cases st <;> simp [hasPending] at hp <;>
    simp [try_transition, transition_checking, transition_checking_out_target,
      transition_pull_remote, transition_checkout_candidate, transition_rebasing,
      transition_check_conflicts, transition_validate, transition_pushing, hb, hu]

/-- C7 witness: a pending poll in PushingCandidate keeps the state. -/
theorem c7_pending_noop_witness :
    try_transition ⟨"main", "true", .list, .tick⟩
      ⟨.pending, .pending, none, fun _ _ => true, fun _ => true⟩
      (.PushingCandidate ⟨.pushCandidate⟩ ⟨⟨1, none, "a"⟩, [], []⟩)
      = some (.PushingCandidate ⟨.pushCandidate⟩ ⟨⟨1, none, "a"⟩, [], []⟩) :=
  c7_pending_noop ⟨"main", "true", .list, .tick⟩
    ⟨.pending, .pending, none, fun _ _ => true, fun _ => true⟩
    (.PushingCandidate ⟨.pushCandidate⟩ ⟨⟨1, none, "a"⟩, [], []⟩) rfl rfl rfl

theorem try_transition_isSome (ctx : Ctx) (env : Env) (st : AppState)
    (h : ∀ c, ctx.lastEvent ≠ .input c) : (try_transition ctx env st).isSome := by
  cases st <;>
    (simp only [try_transition, Option.isSome_some]; try rfl)
  case WaitingForSort s =>
    rcases hev : ctx.lastEvent with c | _ | _ | _
    · exact absurd hev (h c)
    · simp [transition_waiting_sort, hev]
    · simp [transition_waiting_sort, hev]
    · simp [transition_waiting_sort, hev]

/-- C2 counterexample: consuming an Error event while CheckingRepo's poll
is still pending ends the session abnormally (errExit) although the
machine never reaches Failed; and a run sitting in Done consumes ticks
without terminating the loop. -/
theorem c2_counterexample :
    runLoop ⟨"main", "true", .list⟩ (.CheckingRepo ⟨.isRepoClean⟩)
        [(some .error, ⟨.pending, .pending, none, fun _ _ => true, fun _ => true⟩)]
      = ([.CheckingRepo ⟨.isRepoClean⟩, .CheckingRepo ⟨.isRepoClean⟩], .errExit)
    ∧ AppState.Failed ∉
        [AppState.CheckingRepo ⟨.isRepoClean⟩, .CheckingRepo ⟨.isRepoClean⟩]
    ∧ runLoop ⟨"main", "true", .list⟩ .Done
        [(some .tick, ⟨.pending, .pending, none, fun _ _ => true, fun _ => true⟩),
         (some .tick, ⟨.pending, .pending, none, fun _ _ => true, fun _ => true⟩)]
      = ([.Done, .Done, .Done], .running) :=
  ⟨rfl, by decide, rfl⟩

/-- C2 (amended): the driver loop ends abnormally exactly when an Error
event is consumed, whether or not the machine is in Failed; it ends
normally exactly when the event stream closes or a Signal event is
consumed; Done is absorbing but does not by itself terminate the loop. -/
theorem c2_loop_termination (base : BaseCtx) (st : AppState)
    (ev : Option AppEvent) (env : Env) :
    ((∃ st2, mainStep base st ev env = .exitErr st2) ↔ ev = some .error)
    ∧ ((∃ st2, mainStep base st ev env = .exitOk st2) ↔ (ev = none ∨ ev = some .signal))
    ∧ try_transition ⟨base.branch, base.cmd, base.pane, .tick⟩ env .Done = some .Done
    ∧ mainStep base .Done (some .tick) env = .cont .Done := by
  refine ⟨?_, ?_, rfl, rfl⟩
  · rcases ev with _ | e
    · simp [mainStep]
    · rcases e with c | _ | _ | _
      · cases h : try_transition ⟨base.branch, base.cmd, base.pane, .input c⟩ env st <;>
          simp [mainStep, h]
      · obtain ⟨st2, h2⟩ := Option.isSome_iff_exists.mp
          (try_transition_isSome ⟨base.branch, base.cmd, base.pane, .signal⟩ env st
            (by intro c; simp))
        simp [mainStep, h2]
      · obtain ⟨st2, h2⟩ := Option.isSome_iff_exists.mp
          (try_transition_isSome ⟨base.branch, base.cmd, base.pane, .error⟩ env st
            (by intro c; simp))
        simp [mainStep, h2]
      · cases h : try_transition ⟨base.branch, base.cmd, base.pane, .tick⟩ env st <;>
          simp [mainStep, h]
  · rcases ev with _ | e
    · simp [mainStep]
    · rcases e with c | _ | _ | _
      · cases h : try_transition ⟨base.branch, base.cmd, base.pane, .input c⟩ env st <;>
          simp [mainStep, h]
      · obtain ⟨st2, h2⟩ := Option.isSome_iff_exists.mp
          (try_transition_isSome ⟨base.branch, base.cmd, base.pane, .signal⟩ env st
            (by intro c; simp))
        simp [mainStep, h2]
      · obtain ⟨st2, h2⟩ := Option.isSome_iff_exists.mp
          (try_transition_isSome ⟨base.branch, base.cmd, base.pane, .error⟩ env st
            (by intro c; simp))
        simp [mainStep, h2]
      · cases h : try_transition ⟨base.branch, base.cmd, base.pane, .tick⟩ env st <;>
          simp [mainStep, h]

/-- C2 (amended) witness: in Done, a tick continues the loop in Done. -/
theorem c2_loop_termination_witness :
    mainStep ⟨"main", "true", .list⟩ .Done (some .tick)
      ⟨.pending, .pending, none, fun _ _ => true, fun _ => true⟩ = .cont .Done :=
  (c2_loop_termination ⟨"main", "true", .list⟩ .Done (some .tick)
    ⟨.pending, .pending, none, fun _ _ => true, fun _ => true⟩).2.2.2

end Marge
